import Mathlib

/-
Verification of the AirCanvas hand-tracking drawing core.

Shallow embedding of the repository sources:
  * src/AirCanvas-main/src/drawingCanvas.ts   (DrawingCanvas: stroke capture)
  * src/AirCanvas-main/src/main.ts            (GestureDetector)
  * src/AirCanvas-main/src/constants.ts       (GESTURE / STROKE / SCENE constants)
  * src/unnamed/part_001                      (BalloonInflator)
  * ObjectManager (source embedded in src/AirCanvas-main/README.md)

Numbers (TypeScript floats) are modelled as real numbers; Math.sqrt and
Math.hypot become Real.sqrt.
-/

noncomputable section

namespace AirCanvas

/-- 2D point (types.ts: Point2D). -/
structure Point2 where
  x : ℝ
  y : ℝ

/-- 3D point / vector (types.ts: Point3D, three.js Vector3 coordinates). -/
structure Point3 where
  x : ℝ
  y : ℝ
  z : ℝ

namespace GESTURE

/-- constants.ts: GESTURE.PINCH_THRESHOLD = 40 (pixels between thumb and index tip). -/
def PINCH_THRESHOLD : ℝ := 40

/-- constants.ts: GESTURE.MIN_STROKE_LENGTH = 50 (minimum stroke length in pixels). -/
def MIN_STROKE_LENGTH : ℝ := 50

end GESTURE

namespace STROKE

/-- constants.ts: STROKE.WIDTH = 10. -/
def WIDTH : ℝ := 10

/-- constants.ts: STROKE.MIN_POINT_DISTANCE = 8. -/
def MIN_POINT_DISTANCE : ℝ := 8

end STROKE

namespace SCENE

/-- constants.ts: SCENE.INFLATION_AMOUNT = 1.2. -/
def INFLATION_AMOUNT : ℝ := 1.2

/-- constants.ts: SCENE.COLLISION_RADIUS = 1.5. -/
def COLLISION_RADIUS : ℝ := 1.5

/-- constants.ts: SCENE.BOB_AMPLITUDE = 0.1. -/
def BOB_AMPLITUDE : ℝ := 0.1

/-- constants.ts: SCENE.DRIFT_SPEED = 0.02. -/
def DRIFT_SPEED : ℝ := 0.02

end SCENE

/-- Euclidean distance between two 2D points: DrawingCanvas.distance
(sqrt(dx*dx + dy*dy)) and GestureDetector.distance (Math.hypot). -/
def distance (p q : Point2) : ℝ :=
  Real.sqrt ((p.x - q.x) ^ 2 + (p.y - q.y) ^ 2)

/-- Evaluation helper: a concrete distance whose squared form is a perfect square. -/
theorem distance_eval (a b c d D : ℝ) (hD : 0 ≤ D)
    (h : (a - c) ^ 2 + (b - d) ^ 2 = D ^ 2) :
    distance ⟨a, b⟩ ⟨c, d⟩ = D := by
  unfold distance
  rw [h, Real.sqrt_sq hD]

theorem distance_self (p : Point2) : distance p p = 0 := by
  unfold distance
  simp

theorem distance_comm (p q : Point2) : distance p q = distance q p := by
  unfold distance
  ring_nf

theorem distance_nonneg (p q : Point2) : 0 ≤ distance p q :=
  Real.sqrt_nonneg _

/-- Stroke record (types.ts: Stroke). -/
structure Stroke where
  points : List Point2
  color : String
  width : ℝ
  closed : Bool

/-- The mutable state of DrawingCanvas (drawingCanvas.ts fields;
the canvas/rendering context is external and not part of the state). -/
structure CanvasState where
  currentStroke : Option Stroke
  completedStrokes : List Stroke
  livePosition : Option Point2
  filteredPosition : Option Point2
  recentPoints : List Point2

def initCanvas : CanvasState := ⟨none, [], none, none, []⟩

/-- drawingCanvas.ts: JITTER_THRESHOLD = 3. -/
def JITTER_THRESHOLD : ℝ := 3

/-- DrawingCanvas.startStroke. -/
def startStroke (s : CanvasState) (point : Point2) (color : String) : CanvasState :=
  { s with currentStroke := some ⟨[point], color, STROKE.WIDTH, false⟩,
           livePosition := some point,
           filteredPosition := some point,
           recentPoints := [point] }

/-- DrawingCanvas.applyJitterFilter: returns the updated state and the
filtered point (movements below JITTER_THRESHOLD are ignored and the
previous filtered position is reused). -/
def applyJitterFilter (s : CanvasState) (point : Point2) : CanvasState × Point2 :=
  match s.filteredPosition with
  | none => ({ s with filteredPosition := some point }, point)
  | some fp =>
      if distance point fp < JITTER_THRESHOLD then (s, fp)
      else ({ s with filteredPosition := some point }, point)

/-- The buffer update inside DrawingCanvas.addPoint / updateLivePosition:
push the filtered point, evict the oldest entry once the buffer exceeds
10 entries. -/
def pushTrim (buf : List Point2) (p : Point2) : List Point2 :=
  let b := buf ++ [p]
  if 10 < b.length then b.tail else b

/-- DrawingCanvas.getSmoothedPosition: arithmetic mean of the buffer
(zero point for an empty buffer). -/
def getSmoothedPosition (pts : List Point2) : Point2 :=
  if pts.length = 0 then ⟨0, 0⟩
  else ⟨(pts.map Point2.x).sum / pts.length, (pts.map Point2.y).sum / pts.length⟩

/-- DrawingCanvas.addPoint.  The last polyline point is read with index
points.length - 1; strokes always start with one point, so the default
of getLastD is never used on reachable states. -/
def addPoint (s : CanvasState) (point : Point2) : CanvasState :=
  match s.currentStroke with
  | none => s
  | some st =>
      let fs := applyJitterFilter s point
      let buf := pushTrim fs.1.recentPoints fs.2
      let smoothed := getSmoothedPosition buf
      let s2 := { fs.1 with recentPoints := buf, livePosition := some smoothed }
      let lastPoint := st.points.getLastD ⟨0, 0⟩
      if STROKE.MIN_POINT_DISTANCE ≤ distance smoothed lastPoint then
        { s2 with currentStroke := some { st with points := st.points ++ [smoothed] } }
      else s2

/-- DrawingCanvas.updateLivePosition. -/
def updateLivePosition (s : CanvasState) (point : Point2) : CanvasState :=
  let fs := applyJitterFilter s point
  let buf := pushTrim fs.1.recentPoints fs.2
  { fs.1 with recentPoints := buf, livePosition := some (getSmoothedPosition buf) }

/-- DrawingCanvas.clearLivePosition. -/
def clearLivePosition (s : CanvasState) : CanvasState :=
  { s with livePosition := none, filteredPosition := none, recentPoints := [] }

/-- Arc length of a polyline: sum of consecutive point distances
(the loop body of DrawingCanvas.calculateStrokeLength). -/
def polylineLength : List Point2 → ℝ
  | [] => 0
  | [_] => 0
  | p :: q :: rest => distance p q + polylineLength (q :: rest)

/-- DrawingCanvas.calculateStrokeLength. -/
def calculateStrokeLength (s : CanvasState) : ℝ :=
  match s.currentStroke with
  | none => 0
  | some st => if st.points.length < 2 then 0 else polylineLength st.points

/-- DrawingCanvas.discardStroke. -/
def discardStroke (s : CanvasState) : CanvasState :=
  { s with currentStroke := none }

/-- DrawingCanvas.closeStroke: returns the updated state and the closed
stroke snapshot (null is modelled as none). -/
def closeStroke (s : CanvasState) : CanvasState × Option Stroke :=
  match s.currentStroke with
  | none => (s, none)
  | some st =>
      if calculateStrokeLength s < GESTURE.MIN_STROKE_LENGTH then (discardStroke s, none)
      else if 2 < st.points.length then
        let closedStroke := { st with closed := true }
        ({ s with currentStroke := none,
                  completedStrokes := s.completedStrokes ++ [closedStroke] },
         some closedStroke)
      else (discardStroke s, none)

/-- DrawingCanvas.pauseStroke (the stroke remains, nothing is added). -/
def pauseStroke (s : CanvasState) : CanvasState := s

/-- DrawingCanvas.clearAll (rendering-context clearing is external). -/
def clearAllStrokes (s : CanvasState) : CanvasState :=
  { s with currentStroke := none, completedStrokes := [] }

/-- The public operations of DrawingCanvas that mutate capture state. -/
inductive CanvasOp where
  | start (point : Point2) (color : String)
  | add (point : Point2)
  | live (point : Point2)
  | clearLive
  | pause
  | close
  | discard
  | clear

def stepCanvas (s : CanvasState) (op : CanvasOp) : CanvasState :=
  match op with
  | .start p c => startStroke s p c
  | .add p => addPoint s p
  | .live p => updateLivePosition s p
  | .clearLive => clearLivePosition s
  | .pause => pauseStroke s
  | .close => (closeStroke s).1
  | .discard => discardStroke s
  | .clear => clearAllStrokes s

/-- A DrawingCanvas state reached by a sequence of operations from the
freshly constructed canvas. -/
def runCanvas (ops : List CanvasOp) : CanvasState :=
  ops.foldl stepCanvas initCanvas

/-- C1: for an in-progress stroke, closeStroke returns null (and clears
the in-progress stroke) when the polyline arc length is below
GESTURE.MIN_STROKE_LENGTH or fewer than 3 points were captured;
otherwise it returns the snapshot of the stroke with closed = true and
clears the in-progress stroke. -/
theorem closeStroke_spec (s : CanvasState) (st : Stroke)
    (h : s.currentStroke = some st) :
    ((calculateStrokeLength s < GESTURE.MIN_STROKE_LENGTH ∨ st.points.length < 3) →
      closeStroke s = ({ s with currentStroke := none }, none)) ∧
    (GESTURE.MIN_STROKE_LENGTH ≤ calculateStrokeLength s → 2 < st.points.length →
      closeStroke s =
        ({ s with currentStroke := none,
                  completedStrokes := s.completedStrokes ++ [{ st with closed := true }] },
         some { st with closed := true })) := by
  constructor
  · intro hsmall
    simp only [closeStroke, h]
    rcases hsmall with hlen | hcount
    · rw [if_pos hlen]
      rfl
    · by_cases hlen : calculateStrokeLength s < GESTURE.MIN_STROKE_LENGTH
      · rw [if_pos hlen]
        rfl
      · rw [if_neg hlen, if_neg (by omega)]
        rfl
  · intro hlen hcount
    simp only [closeStroke, h]
    rw [if_neg (not_lt.mpr hlen), if_pos hcount]

/-- The four corner points of an axis-aligned 10 by 10 pixel square. -/
def squareStroke : Stroke :=
  ⟨[⟨0, 0⟩, ⟨10, 0⟩, ⟨10, 10⟩, ⟨0, 10⟩], "#FFB3BA", 10, false⟩

def squareState : CanvasState := ⟨some squareStroke, [], none, none, []⟩

theorem squareState_length : calculateStrokeLength squareState = 30 := by
  have h1 : distance ⟨0, 0⟩ ⟨10, 0⟩ = 10 := distance_eval _ _ _ _ _ (by norm_num) (by norm_num)
  have h2 : distance ⟨10, 0⟩ ⟨10, 10⟩ = 10 := distance_eval _ _ _ _ _ (by norm_num) (by norm_num)
  have h3 : distance ⟨10, 10⟩ ⟨0, 10⟩ = 10 := distance_eval _ _ _ _ _ (by norm_num) (by norm_num)
  show (if (4 : ℕ) < 2 then (0 : ℝ) else polylineLength squareStroke.points) = 30
  rw [if_neg (by norm_num)]
  show distance ⟨0, 0⟩ ⟨10, 0⟩ + (distance ⟨10, 0⟩ ⟨10, 10⟩ + (distance ⟨10, 10⟩ ⟨0, 10⟩ + 0)) = 30
  rw [h1, h2, h3]
  norm_num

/-- Witness for C1: the 10 by 10 pixel square (polyline arc length 30,
below the 50 pixel threshold) is rejected: closeStroke returns null. -/
theorem closeStroke_spec_witness :
    (calculateStrokeLength squareState < GESTURE.MIN_STROKE_LENGTH ∨
      squareStroke.points.length < 3) ∧
    closeStroke squareState = ({ squareState with currentStroke := none }, none) := by
  have hsmall : calculateStrokeLength squareState < GESTURE.MIN_STROKE_LENGTH ∨
      squareStroke.points.length < 3 := by
    left
    rw [squareState_length]
    norm_num [GESTURE.MIN_STROKE_LENGTH]
  exact ⟨hsmall, (closeStroke_spec squareState squareStroke rfl).1 hsmall⟩

/-- types.ts: GestureType (the union also declares poke and swipe). -/
inductive GestureType where
  | none
  | draw
  | pinch
  | palm
  | fist
  | poke
  | swipe
  deriving DecidableEq

/-- types.ts: GestureState.  The runtime additionally bolts a
pinchDistance field onto the returned object with an any-cast; no claim
reads it, so it is not part of the model. -/
structure GestureState where
  current : GestureType
  previous : GestureType
  duration : ℝ
  velocity : Point2
  confidence : ℝ

/-- types.ts: HandLandmarks (21 MediaPipe landmarks; the optional world
landmarks are unused by the gesture detector). -/
structure HandLandmarks where
  landmarks : Fin 21 → Point2

namespace LANDMARKS

def WRIST : Fin 21 := 0
def THUMB_TIP : Fin 21 := 4
def INDEX_MCP : Fin 21 := 5
def INDEX_PIP : Fin 21 := 6
def INDEX_TIP : Fin 21 := 8
def MIDDLE_PIP : Fin 21 := 10
def MIDDLE_TIP : Fin 21 := 12
def RING_PIP : Fin 21 := 14
def RING_TIP : Fin 21 := 16
def PINKY_MCP : Fin 21 := 17
def PINKY_PIP : Fin 21 := 18
def PINKY_TIP : Fin 21 := 20

end LANDMARKS

/-- GestureDetector.isFingerExtended: tip above its joint in image space
(smaller y coordinate). -/
def isFingerExtended (lm : HandLandmarks) (tipIdx pipIdx : Fin 21) : Prop :=
  (lm.landmarks tipIdx).y < (lm.landmarks pipIdx).y

instance (lm : HandLandmarks) (t p : Fin 21) : Decidable (isFingerExtended lm t p) := by
  unfold isFingerExtended
  infer_instance

/-- GestureDetector.isPointingIndex: index open, middle/ring/pinky closed. -/
def isPointingIndex (lm : HandLandmarks) : Prop :=
  isFingerExtended lm LANDMARKS.INDEX_TIP LANDMARKS.INDEX_PIP ∧
  ¬ isFingerExtended lm LANDMARKS.MIDDLE_TIP LANDMARKS.MIDDLE_PIP ∧
  ¬ isFingerExtended lm LANDMARKS.RING_TIP LANDMARKS.RING_PIP ∧
  ¬ isFingerExtended lm LANDMARKS.PINKY_TIP LANDMARKS.PINKY_PIP

instance (lm : HandLandmarks) : Decidable (isPointingIndex lm) := by
  unfold isPointingIndex
  infer_instance

/-- GestureDetector.isOpenPalm: all four non-thumb fingers open. -/
def isOpenPalm (lm : HandLandmarks) : Prop :=
  isFingerExtended lm LANDMARKS.INDEX_TIP LANDMARKS.INDEX_PIP ∧
  isFingerExtended lm LANDMARKS.MIDDLE_TIP LANDMARKS.MIDDLE_PIP ∧
  isFingerExtended lm LANDMARKS.RING_TIP LANDMARKS.RING_PIP ∧
  isFingerExtended lm LANDMARKS.PINKY_TIP LANDMARKS.PINKY_PIP

instance (lm : HandLandmarks) : Decidable (isOpenPalm lm) := by
  unfold isOpenPalm
  infer_instance

/-- GestureDetector.isFist: all four non-thumb fingers closed. -/
def isFist (lm : HandLandmarks) : Prop :=
  ¬ isFingerExtended lm LANDMARKS.INDEX_TIP LANDMARKS.INDEX_PIP ∧
  ¬ isFingerExtended lm LANDMARKS.MIDDLE_TIP LANDMARKS.MIDDLE_PIP ∧
  ¬ isFingerExtended lm LANDMARKS.RING_TIP LANDMARKS.RING_PIP ∧
  ¬ isFingerExtended lm LANDMARKS.PINKY_TIP LANDMARKS.PINKY_PIP

instance (lm : HandLandmarks) : Decidable (isFist lm) := by
  unfold isFist
  infer_instance

/-- GestureDetector.detectGestureType.  The pinch comparison uses the
hardcoded literal 60 from main.ts (the source comment says the threshold
was increased from GESTURE.PINCH_THRESHOLD for easier grabbing); the
velocity parameter is accepted but never read, exactly as in the source. -/
def detectGestureType (lm : HandLandmarks) (velocity : Point2) : GestureType :=
  if distance (lm.landmarks LANDMARKS.THUMB_TIP) (lm.landmarks LANDMARKS.INDEX_TIP) < 60 then
    GestureType.pinch
  else if isPointingIndex lm then GestureType.draw
  else if isOpenPalm lm then GestureType.palm
  else if isFist lm then GestureType.fist
  else GestureType.none

/-- The mutable fields of GestureDetector that detect reads or writes
(palmHistory and velocityHistory are declared in the source but never
used). -/
structure DetectorState where
  lastLandmarks : Option HandLandmarks
  lastTime : ℝ
  gestureStartTime : ℝ
  currentGesture : GestureType
  previousGesture : GestureType

def initDetector : DetectorState := ⟨none, 0, 0, GestureType.none, GestureType.none⟩

/-- GestureDetector.createState. -/
def createState (s : DetectorState) (gesture : GestureType) (velocity : Point2)
    (duration : ℝ) : GestureState :=
  ⟨gesture, s.previousGesture, duration, velocity, 1⟩

/-- GestureDetector.getPalmCenter. -/
def getPalmCenter (lm : HandLandmarks) : Point2 :=
  let wrist := lm.landmarks LANDMARKS.WRIST
  let indexMcp := lm.landmarks LANDMARKS.INDEX_MCP
  let pinkyMcp := lm.landmarks LANDMARKS.PINKY_MCP
  ⟨(wrist.x + indexMcp.x + pinkyMcp.x) / 3, (wrist.y + indexMcp.y + pinkyMcp.y) / 3⟩

/-- GestureDetector.calculateVelocity. -/
def calculateVelocity (s : DetectorState) (lm : HandLandmarks) (dt : ℝ) : Point2 :=
  match s.lastLandmarks with
  | none => ⟨0, 0⟩
  | some last =>
      if dt = 0 then ⟨0, 0⟩
      else
        let currentPalm := getPalmCenter lm
        let lastPalm := getPalmCenter last
        ⟨(currentPalm.x - lastPalm.x) / dt, (currentPalm.y - lastPalm.y) / dt⟩

/-- GestureDetector.detect.  performance.now() is passed in explicitly as
the now argument; the method both mutates the detector and returns the
GestureState, modelled as a pair. -/
def detect (s : DetectorState) (landmarks : Option HandLandmarks) (now : ℝ) :
    DetectorState × GestureState :=
  let dt := if 0 < s.lastTime then (now - s.lastTime) / 1000 else 0
  let s1 := { s with lastTime := now }
  match landmarks with
  | none => (s1, createState s1 GestureType.none ⟨0, 0⟩ 0)
  | some lm =>
      let velocity := calculateVelocity s1 lm dt
      let detectedGesture := detectGestureType lm velocity
      let s2 := if detectedGesture ≠ s1.currentGesture then
          { s1 with previousGesture := s1.currentGesture,
                    currentGesture := detectedGesture,
                    gestureStartTime := now }
        else s1
      let duration := now - s2.gestureStartTime
      let s3 := { s2 with lastLandmarks := some lm }
      (s3, createState s3 s3.currentGesture velocity duration)

/-- C2: a thumb-to-index distance below the configured
GESTURE.PINCH_THRESHOLD is always classified as pinch; in particular a
frame that is simultaneously in the draw pose (isPointingIndex) and
within pinch distance is classified pinch, because the pinch check comes
first. -/
theorem detectGestureType_pinch_priority (lm : HandLandmarks) (velocity : Point2) :
    (distance (lm.landmarks LANDMARKS.THUMB_TIP) (lm.landmarks LANDMARKS.INDEX_TIP) <
        GESTURE.PINCH_THRESHOLD →
      detectGestureType lm velocity = GestureType.pinch) ∧
    (distance (lm.landmarks LANDMARKS.THUMB_TIP) (lm.landmarks LANDMARKS.INDEX_TIP) <
        GESTURE.PINCH_THRESHOLD → isPointingIndex lm →
      detectGestureType lm velocity = GestureType.pinch) := by
  have key : distance (lm.landmarks LANDMARKS.THUMB_TIP) (lm.landmarks LANDMARKS.INDEX_TIP) <
      GESTURE.PINCH_THRESHOLD → detectGestureType lm velocity = GestureType.pinch := by
    intro h
    unfold detectGestureType
    rw [if_pos (lt_trans h (by norm_num [GESTURE.PINCH_THRESHOLD]))]
  exact ⟨key, fun h _ => key h⟩

/-- A frame whose thumb tip and index tip coincide (pinch distance 0)
while the hand is in the strict draw pose. -/
def pinchDrawFrame : HandLandmarks :=
  ⟨fun i => match i.val with
    | 4 => ⟨100, 0⟩
    | 8 => ⟨100, 0⟩
    | 6 => ⟨100, 50⟩
    | _ => ⟨0, 0⟩⟩

/-- Witness for C2 at the concrete frame pinchDrawFrame. -/
theorem detectGestureType_pinch_priority_witness :
    distance (pinchDrawFrame.landmarks LANDMARKS.THUMB_TIP)
        (pinchDrawFrame.landmarks LANDMARKS.INDEX_TIP) < GESTURE.PINCH_THRESHOLD ∧
    isPointingIndex pinchDrawFrame ∧
    detectGestureType pinchDrawFrame ⟨0, 0⟩ = GestureType.pinch := by
  have h4 : pinchDrawFrame.landmarks LANDMARKS.THUMB_TIP = ⟨100, 0⟩ := rfl
  have h8 : pinchDrawFrame.landmarks LANDMARKS.INDEX_TIP = ⟨100, 0⟩ := rfl
  have hd : distance (pinchDrawFrame.landmarks LANDMARKS.THUMB_TIP)
      (pinchDrawFrame.landmarks LANDMARKS.INDEX_TIP) < GESTURE.PINCH_THRESHOLD := by
    rw [h4, h8, distance_self]
    norm_num [GESTURE.PINCH_THRESHOLD]
  have hpt : isPointingIndex pinchDrawFrame := by
    refine ⟨?_, ?_, ?_, ?_⟩
    · show (pinchDrawFrame.landmarks LANDMARKS.INDEX_TIP).y <
        (pinchDrawFrame.landmarks LANDMARKS.INDEX_PIP).y
      show (0 : ℝ) < 50
      norm_num
    · show ¬ (pinchDrawFrame.landmarks LANDMARKS.MIDDLE_TIP).y <
        (pinchDrawFrame.landmarks LANDMARKS.MIDDLE_PIP).y
      show ¬ (0 : ℝ) < 0
      norm_num
    · show ¬ (pinchDrawFrame.landmarks LANDMARKS.RING_TIP).y <
        (pinchDrawFrame.landmarks LANDMARKS.RING_PIP).y
      show ¬ (0 : ℝ) < 0
      norm_num
    · show ¬ (pinchDrawFrame.landmarks LANDMARKS.PINKY_TIP).y <
        (pinchDrawFrame.landmarks LANDMARKS.PINKY_PIP).y
      show ¬ (0 : ℝ) < 0
      norm_num
  exact ⟨hd, hpt, (detectGestureType_pinch_priority pinchDrawFrame ⟨0, 0⟩).2 hd hpt⟩

/-- After a non-null frame the returned gesture equals the freshly
detected gesture (whether or not it changed). -/
theorem detect_current_eq (s : DetectorState) (lm : HandLandmarks) (now : ℝ) :
    (detect s (some lm) now).2.current =
      detectGestureType lm
        (calculateVelocity { s with lastTime := now } lm
          (if 0 < s.lastTime then (now - s.lastTime) / 1000 else 0)) := by
  unfold detect createState
  dsimp only
  by_cases hc : detectGestureType lm
      (calculateVelocity { s with lastTime := now } lm
        (if 0 < s.lastTime then (now - s.lastTime) / 1000 else 0)) ≠ s.currentGesture
  · rw [if_pos hc]
  · rw [if_neg hc]
    push_neg at hc
    exact hc.symm

/-- C10: detect only ever returns one of none, draw, pinch, palm, fist;
it never returns swipe or poke even though GestureType declares them. -/
theorem detect_gesture_range (s : DetectorState) (landmarks : Option HandLandmarks) (now : ℝ) :
    ((detect s landmarks now).2.current = GestureType.none ∨
     (detect s landmarks now).2.current = GestureType.draw ∨
     (detect s landmarks now).2.current = GestureType.pinch ∨
     (detect s landmarks now).2.current = GestureType.palm ∨
     (detect s landmarks now).2.current = GestureType.fist) ∧
    (detect s landmarks now).2.current ≠ GestureType.swipe ∧
    (detect s landmarks now).2.current ≠ GestureType.poke := by
  have range : (detect s landmarks now).2.current = GestureType.none ∨
      (detect s landmarks now).2.current = GestureType.draw ∨
      (detect s landmarks now).2.current = GestureType.pinch ∨
      (detect s landmarks now).2.current = GestureType.palm ∨
      (detect s landmarks now).2.current = GestureType.fist := by
    match landmarks with
    | none => left; rfl
    | some lm =>
        rw [detect_current_eq]
        unfold detectGestureType
        split_ifs with h1 h2 h3 h4
        · right; right; left; rfl
        · right; left; rfl
        · right; right; right; left; rfl
        · right; right; right; right; rfl
        · left; rfl
  refine ⟨range, ?_, ?_⟩
  · rcases range with h | h | h | h | h <;> rw [h] <;> simp
  · rcases range with h | h | h | h | h <;> rw [h] <;> simp

/-- C3 (amended): on a null frame, detect returns gesture none with zero
velocity and zero duration, but the held-gesture bookkeeping is NOT
reset: the only state change is the frame timestamp, and
gestureStartTime, currentGesture, previousGesture and lastLandmarks are
left untouched, so a gesture held across a null frame keeps its pre-loss
start time. -/
theorem detect_null_frame (s : DetectorState) (now : ℝ) :
    detect s none now =
      ({ s with lastTime := now },
       { current := GestureType.none, previous := s.previousGesture,
         duration := 0, velocity := ⟨0, 0⟩, confidence := 1 }) := rfl

/-- A frame in the strict draw pose whose thumb-to-index distance is
sqrt 20000 (about 141 pixels), well above the pinch threshold. -/
def drawFrame : HandLandmarks :=
  ⟨fun i => match i.val with
    | 4 => ⟨0, 100⟩
    | 8 => ⟨100, 0⟩
    | 6 => ⟨100, 50⟩
    | _ => ⟨0, 0⟩⟩

theorem drawFrame_not_pinch :
    ¬ distance (drawFrame.landmarks LANDMARKS.THUMB_TIP)
        (drawFrame.landmarks LANDMARKS.INDEX_TIP) < 60 := by
  have h4 : drawFrame.landmarks LANDMARKS.THUMB_TIP = ⟨0, 100⟩ := rfl
  have h8 : drawFrame.landmarks LANDMARKS.INDEX_TIP = ⟨100, 0⟩ := rfl
  rw [h4, h8]
  unfold distance
  rw [Real.sqrt_lt' (by norm_num : (0 : ℝ) < 60)]
  norm_num

theorem drawFrame_pointing : isPointingIndex drawFrame := by
  refine ⟨?_, ?_, ?_, ?_⟩
  · show (drawFrame.landmarks LANDMARKS.INDEX_TIP).y <
      (drawFrame.landmarks LANDMARKS.INDEX_PIP).y
    show (0 : ℝ) < 50
    norm_num
  · show ¬ (drawFrame.landmarks LANDMARKS.MIDDLE_TIP).y <
      (drawFrame.landmarks LANDMARKS.MIDDLE_PIP).y
    show ¬ (0 : ℝ) < 0
    norm_num
  · show ¬ (drawFrame.landmarks LANDMARKS.RING_TIP).y <
      (drawFrame.landmarks LANDMARKS.RING_PIP).y
    show ¬ (0 : ℝ) < 0
    norm_num
  · show ¬ (drawFrame.landmarks LANDMARKS.PINKY_TIP).y <
      (drawFrame.landmarks LANDMARKS.PINKY_PIP).y
    show ¬ (0 : ℝ) < 0
    norm_num

theorem detectGestureType_drawFrame (v : Point2) :
    detectGestureType drawFrame v = GestureType.draw := by
  unfold detectGestureType
  rw [if_neg drawFrame_not_pinch, if_pos drawFrame_pointing]

theorem calculateVelocity_noLast (s : DetectorState) (lm : HandLandmarks) (dt : ℝ)
    (h : s.lastLandmarks = none) : calculateVelocity s lm dt = ⟨0, 0⟩ := by
  simp only [calculateVelocity, h]

theorem calculateVelocity_sameFrame (s : DetectorState) (lm : HandLandmarks) (dt : ℝ)
    (h : s.lastLandmarks = some lm) : calculateVelocity s lm dt = ⟨0, 0⟩ := by
  simp only [calculateVelocity, h]
  by_cases hdt : dt = 0
  · rw [if_pos hdt]
  · rw [if_neg hdt]
    simp [Point2.mk.injEq]

/-- Detector state after seeing drawFrame at t = 1000 ms. -/
def detState1 : DetectorState := ⟨some drawFrame, 1000, 1000, GestureType.draw, GestureType.none⟩

/-- Detector state after seeing drawFrame again at t = 2000 ms. -/
def detState2 : DetectorState := ⟨some drawFrame, 2000, 1000, GestureType.draw, GestureType.none⟩

/-- Detector state after the hand is lost (null frame) at t = 3000 ms. -/
def detState3 : DetectorState := ⟨some drawFrame, 3000, 1000, GestureType.draw, GestureType.none⟩

theorem detect_step1 :
    detect initDetector (some drawFrame) 1000 =
      (detState1, ⟨GestureType.draw, GestureType.none, 0, ⟨0, 0⟩, 1⟩) := by
  unfold detect
  dsimp only
  rw [calculateVelocity_noLast _ _ _ rfl, detectGestureType_drawFrame,
    if_pos (by decide : GestureType.draw ≠ (initDetector.currentGesture))]
  unfold createState detState1 initDetector
  norm_num

theorem detect_step2 :
    detect detState1 (some drawFrame) 2000 =
      (detState2, ⟨GestureType.draw, GestureType.none, 1000, ⟨0, 0⟩, 1⟩) := by
  unfold detect
  dsimp only
  rw [calculateVelocity_sameFrame _ _ _ rfl, detectGestureType_drawFrame]
  rw [if_neg (by decide : ¬ GestureType.draw ≠ (detState1.currentGesture))]
  unfold createState detState1 detState2
  norm_num

theorem detect_step3 :
    detect detState2 none 3000 = (detState3, ⟨GestureType.none, GestureType.none, 0, ⟨0, 0⟩, 1⟩) := rfl

theorem detect_step4 :
    detect detState3 (some drawFrame) 4000 =
      (⟨some drawFrame, 4000, 1000, GestureType.draw, GestureType.none⟩,
       ⟨GestureType.draw, GestureType.none, 3000, ⟨0, 0⟩, 1⟩) := by
  unfold detect
  dsimp only
  rw [calculateVelocity_sameFrame _ _ _ rfl, detectGestureType_drawFrame]
  rw [if_neg (by decide : ¬ GestureType.draw ≠ (detState3.currentGesture))]
  unfold createState detState3
  norm_num

/-- C3 counterexample: drawFrame is held at t = 1000 and 2000 ms, the
hand is lost (null frame) at t = 3000 ms, and drawFrame is seen again at
t = 4000 ms.  The null call leaves gestureStartTime at 1000 ms (the
timers are not reset), so the fourth call reports a duration of 3000 ms,
continuing from before the hand was lost instead of restarting at zero. -/
theorem detect_null_frame_counterexample :
    ((detect (detect (detect (detect initDetector (some drawFrame) 1000).1
        (some drawFrame) 2000).1 none 3000).1 (some drawFrame) 4000).2.duration = 3000) ∧
    ((detect (detect (detect initDetector (some drawFrame) 1000).1
        (some drawFrame) 2000).1 none 3000).1.gestureStartTime = 1000) ∧
    (3000 : ℝ) ≠ 0 := by
  rw [detect_step1]
  show (detect (detect (detect detState1 (some drawFrame) 2000).1 none 3000).1
      (some drawFrame) 4000).2.duration = 3000 ∧
    (detect (detect detState1 (some drawFrame) 2000).1 none 3000).1.gestureStartTime = 1000 ∧
    (3000 : ℝ) ≠ 0
  rw [detect_step2]
  show (detect (detect detState2 none 3000).1 (some drawFrame) 4000).2.duration = 3000 ∧
    (detect detState2 none 3000).1.gestureStartTime = 1000 ∧ (3000 : ℝ) ≠ 0
  rw [detect_step3]
  show (detect detState3 (some drawFrame) 4000).2.duration = 3000 ∧
    detState3.gestureStartTime = 1000 ∧ (3000 : ℝ) ≠ 0
  rw [detect_step4]
  exact ⟨rfl, rfl, by norm_num⟩

/-- Length of the displacement between two 3D points (Math.sqrt of the
sum of squared coordinate differences, as in BalloonInflator.inflateGeometry). -/
def distance3 (p q : Point3) : ℝ :=
  Real.sqrt ((p.x - q.x) ^ 2 + (p.y - q.y) ^ 2 + (p.z - q.z) ^ 2)

theorem distance3_pos_of_gt (p q : Point3) (h : (0.001 : ℝ) < distance3 p q) :
    0 < distance3 p q := lt_trans (by norm_num) h

/-- Pushing a point radially away from c by a nonnegative amount a along
the unit direction from c increases its distance from c by exactly a. -/
theorem distance3_radial_push (c p : Point3) (a : ℝ) (ha : 0 ≤ a)
    (hd : 0 < distance3 p c) :
    distance3 ⟨p.x + (p.x - c.x) / distance3 p c * a,
               p.y + (p.y - c.y) / distance3 p c * a,
               p.z + (p.z - c.z) / distance3 p c * a⟩ c = distance3 p c + a := by
  have hne : distance3 p c ≠ 0 := ne_of_gt hd
  have hk : (0 : ℝ) < 1 + a / distance3 p c := by positivity
  have e1 : p.x + (p.x - c.x) / distance3 p c * a - c.x =
      (p.x - c.x) * (1 + a / distance3 p c) := by
    field_simp
    ring
  have e2 : p.y + (p.y - c.y) / distance3 p c * a - c.y =
      (p.y - c.y) * (1 + a / distance3 p c) := by
    field_simp
    ring
  have e3 : p.z + (p.z - c.z) / distance3 p c * a - c.z =
      (p.z - c.z) * (1 + a / distance3 p c) := by
    field_simp
    ring
  have sqsum : ((p.x - c.x) * (1 + a / distance3 p c)) ^ 2 +
      ((p.y - c.y) * (1 + a / distance3 p c)) ^ 2 +
      ((p.z - c.z) * (1 + a / distance3 p c)) ^ 2 =
      (1 + a / distance3 p c) ^ 2 *
        ((p.x - c.x) ^ 2 + (p.y - c.y) ^ 2 + (p.z - c.z) ^ 2) := by
    ring
  show Real.sqrt _ = distance3 p c + a
  rw [e1, e2, e3, sqsum, Real.sqrt_mul (by positivity) _, Real.sqrt_sq (le_of_lt hk)]
  show (1 + a / distance3 p c) * distance3 p c = distance3 p c + a
  field_simp

/-- The per-vertex body of BalloonInflator.inflateGeometry: displacement
from the bounding-box center, pushed outward by
SCENE.INFLATION_AMOUNT * 0.1 when the distance exceeds 0.001, left
unchanged otherwise. -/
def inflateVertex (center : Point3) (v : Point3) : Point3 :=
  let dx := v.x - center.x
  let dy := v.y - center.y
  let dz := v.z - center.z
  let dst := Real.sqrt (dx ^ 2 + dy ^ 2 + dz ^ 2)
  if 0.001 < dst then
    let inflateAmount := SCENE.INFLATION_AMOUNT * 0.1
    ⟨v.x + dx / dst * inflateAmount,
     v.y + dy / dst * inflateAmount,
     v.z + dz / dst * inflateAmount⟩
  else v

/-- THREE.Box3 bounding-box center of a vertex list (componentwise
min/max midpoint); the empty case is unreachable in the source, which
returns early when the geometry has no position attribute. -/
def bboxCenter : List Point3 → Point3
  | [] => ⟨0, 0, 0⟩
  | v :: vs =>
      ⟨(vs.foldl (fun m w => min m w.x) v.x + vs.foldl (fun m w => max m w.x) v.x) / 2,
       (vs.foldl (fun m w => min m w.y) v.y + vs.foldl (fun m w => max m w.y) v.y) / 2,
       (vs.foldl (fun m w => min m w.z) v.z + vs.foldl (fun m w => max m w.z) v.z) / 2⟩

/-- BalloonInflator.inflateGeometry on the vertex positions (the normals
recomputation afterwards is consumed by the render engine and carries no
position information). -/
def inflateGeometry (verts : List Point3) : List Point3 :=
  verts.map (inflateVertex (bboxCenter verts))

theorem inflateVertex_near (c v : Point3) (h : distance3 v c ≤ 0.001) :
    inflateVertex c v = v := by
  unfold inflateVertex
  dsimp only
  rw [if_neg (show ¬ (0.001 : ℝ) <
    Real.sqrt ((v.x - c.x) ^ 2 + (v.y - c.y) ^ 2 + (v.z - c.z) ^ 2) from not_lt.mpr h)]

theorem inflateVertex_far (c v : Point3) (h : (0.001 : ℝ) < distance3 v c) :
    distance3 (inflateVertex c v) c = distance3 v c + SCENE.INFLATION_AMOUNT * 0.1 := by
  have hd : (0 : ℝ) < distance3 v c := distance3_pos_of_gt v c h
  unfold inflateVertex
  dsimp only
  rw [if_pos (show (0.001 : ℝ) <
    Real.sqrt ((v.x - c.x) ^ 2 + (v.y - c.y) ^ 2 + (v.z - c.z) ^ 2) from h)]
  exact distance3_radial_push c v _ (by norm_num [SCENE.INFLATION_AMOUNT]) hd

/-- C4: the inflation pass maps every vertex through inflateVertex with
the bounding-box center; a vertex within 0.001 of that center is
unchanged, and every other vertex strictly increases its distance from
the center (the configured inflation amount 1.2 times 0.1 is positive). -/
theorem inflateGeometry_spec (verts : List Point3) (i : ℕ) (v : Point3)
    (hv : verts.get? i = some v) :
    (inflateGeometry verts).get? i = some (inflateVertex (bboxCenter verts) v) ∧
    (distance3 v (bboxCenter verts) ≤ 0.001 → inflateVertex (bboxCenter verts) v = v) ∧
    ((0.001 : ℝ) < distance3 v (bboxCenter verts) →
      distance3 v (bboxCenter verts) <
        distance3 (inflateVertex (bboxCenter verts) v) (bboxCenter verts)) := by
  refine ⟨?_, fun h => inflateVertex_near _ _ h, fun h => ?_⟩
  · rw [inflateGeometry, List.get?_map, hv]
    rfl
  · rw [inflateVertex_far _ _ h]
    have : (0 : ℝ) < SCENE.INFLATION_AMOUNT * 0.1 := by norm_num [SCENE.INFLATION_AMOUNT]
    linarith

/-- Three vertices whose bounding box is centered at (1, 0, 0); the
third vertex coincides with the center. -/
def balloonVerts : List Point3 := [⟨0, 0, 0⟩, ⟨2, 0, 0⟩, ⟨1, 0, 0⟩]

theorem balloonVerts_center : bboxCenter balloonVerts = ⟨1, 0, 0⟩ := by
  show (⟨(min (min 0 2) 1 + max (max 0 2) 1) / 2,
         (min (min 0 0) 0 + max (max 0 0) 0) / 2,
         (min (min 0 0) 0 + max (max 0 0) 0) / 2⟩ : Point3) = ⟨1, 0, 0⟩
  norm_num

/-- Witness for C4: at the concrete vertex list balloonVerts, the vertex
(2,0,0) (distance 1 from the center) strictly moves outward, and the
vertex (1,0,0) (distance 0) is left unchanged. -/
theorem inflateGeometry_spec_witness :
    (0.001 : ℝ) < distance3 ⟨2, 0, 0⟩ (bboxCenter balloonVerts) ∧
    distance3 ⟨2, 0, 0⟩ (bboxCenter balloonVerts) <
      distance3 (inflateVertex (bboxCenter balloonVerts) ⟨2, 0, 0⟩) (bboxCenter balloonVerts) ∧
    distance3 ⟨1, 0, 0⟩ (bboxCenter balloonVerts) ≤ 0.001 ∧
    inflateVertex (bboxCenter balloonVerts) ⟨1, 0, 0⟩ = ⟨1, 0, 0⟩ := by
  have hfar : (0.001 : ℝ) < distance3 ⟨2, 0, 0⟩ (bboxCenter balloonVerts) := by
    rw [balloonVerts_center]
    unfold distance3
    norm_num
  have hnear : distance3 ⟨1, 0, 0⟩ (bboxCenter balloonVerts) ≤ 0.001 := by
    rw [balloonVerts_center]
    unfold distance3
    norm_num
  obtain ⟨-, -, h2⟩ := inflateGeometry_spec balloonVerts 1 ⟨2, 0, 0⟩ rfl
  obtain ⟨-, h1, -⟩ := inflateGeometry_spec balloonVerts 2 ⟨1, 0, 0⟩ rfl
  exact ⟨hfar, h2 hfar, hnear, h1 hnear⟩

/-- A three.js Shape path as produced by BalloonInflator.createShape:
either a single absarc call, or a moveTo/lineTo path with a closedPath
flag recording whether closePath was called. -/
inductive ShapePath where
  | arc (cx cy radius startAngle endAngle : ℝ) (clockwise : Bool)
  | path (pts : List Point2) (closedPath : Bool)

/-- BalloonInflator.getStrokeCenter (centroid of the points). -/
def getStrokeCenter (pts : List Point2) : Point2 :=
  ⟨(pts.map Point2.x).sum / pts.length, (pts.map Point2.y).sum / pts.length⟩

/-- The normalization inside BalloonInflator.createShape: recenter on the
stroke centroid, scale down by 50 and flip the y axis. -/
def normalizePoints (pts : List Point2) : List Point2 :=
  pts.map fun p =>
    ⟨(p.x - (getStrokeCenter pts).x) / 50, -(p.y - (getStrokeCenter pts).y) / 50⟩

/-- BalloonInflator.createShape.  For fewer than 3 points the source
emits shape.absarc(0, 0, 1, 0, 2 pi, false), a full unit circle.
Otherwise the normalized points are fed through the external three.js
CatmullRomCurve3 (closed = true) and resampled; that external library
resampling is elided here (the model keeps the normalized control
points), and the source always ends the path with shape.closePath(),
recorded as the closedPath flag. -/
def createShape (pts : List Point2) : ShapePath :=
  if pts.length < 3 then ShapePath.arc 0 0 1 0 (2 * Real.pi) false
  else ShapePath.path (normalizePoints pts) true

/-- A valid closed curve: an arc spanning a full turn, or a path
terminated by closePath. -/
def ShapePath.isClosedCurve : ShapePath → Prop
  | .arc _ _ _ startAngle endAngle _ => endAngle - startAngle = 2 * Real.pi
  | .path _ closedPath => closedPath = true

/-- C7: for fewer than 3 input points createShape substitutes the full
unit circle (centered at the origin, radius 1) instead of failing, and
createShape always yields a valid closed curve, so the mesh extrusion
stage always receives a valid closed shape. -/
theorem createShape_degenerate (pts : List Point2) :
    (pts.length < 3 → createShape pts = ShapePath.arc 0 0 1 0 (2 * Real.pi) false) ∧
    (createShape pts).isClosedCurve := by
  constructor
  · intro h
    unfold createShape
    rw [if_pos h]
  · unfold createShape
    by_cases h : pts.length < 3
    · rw [if_pos h]
      show 2 * Real.pi - 0 = 2 * Real.pi
      ring
    · rw [if_neg h]
      rfl

/-- Witness for C7 at a concrete degenerate 2-point stroke. -/
theorem createShape_degenerate_witness :
    createShape [⟨0, 0⟩, ⟨5, 5⟩] = ShapePath.arc 0 0 1 0 (2 * Real.pi) false ∧
    (createShape [⟨0, 0⟩, ⟨5, 5⟩]).isClosedCurve :=
  ⟨(createShape_degenerate [⟨0, 0⟩, ⟨5, 5⟩]).1 (by norm_num),
   (createShape_degenerate [⟨0, 0⟩, ⟨5, 5⟩]).2⟩

/-- ObjectManager's per-object record (types.ts: BalloonObject).  The
string id balloon_n is modelled by its counter n; mesh.position,
mesh.rotation and mesh.scale are the position, rotation and meshScale
fields. -/
structure BalloonObject where
  id : ℕ
  position : Point3
  targetPosition : Point3
  rotation : Point3
  rotationSpeed : Point3
  bobOffset : ℝ
  bobSpeed : ℝ
  scale : ℝ
  squishAmount : ℝ
  isGrabbed : Bool

/-- One iteration of the loop in ObjectManager.softCollisionAvoidance:
skip the object itself by id; inside the collision radius (and above the
0.001 degenerate-distance guard) push the mover along the separating
axis by pushForce, and add half of that push to its target position. -/
def softCollisionStep (o other : BalloonObject) (dt : ℝ) : BalloonObject :=
  if other.id = o.id then o
  else
    let dst := distance3 o.position other.position
    if dst < SCENE.COLLISION_RADIUS ∧ 0.001 < dst then
      let pushForce := (SCENE.COLLISION_RADIUS - dst) / SCENE.COLLISION_RADIUS * dt * 2
      { o with
          position := ⟨o.position.x + (o.position.x - other.position.x) / dst * pushForce,
                       o.position.y + (o.position.y - other.position.y) / dst * pushForce,
                       o.position.z + (o.position.z - other.position.z) / dst * pushForce⟩,
          targetPosition :=
            ⟨o.targetPosition.x + (o.position.x - other.position.x) / dst * pushForce * 0.5,
             o.targetPosition.y + (o.position.y - other.position.y) / dst * pushForce * 0.5,
             o.targetPosition.z + (o.position.z - other.position.z) / dst * pushForce * 0.5⟩ }
    else o

/-- ObjectManager.softCollisionAvoidance: fold of softCollisionStep over
the active object list (which includes the mover itself, skipped by id). -/
def softCollisionAvoidance (objs : List BalloonObject) (obj : BalloonObject)
    (dt : ℝ) : BalloonObject :=
  objs.foldl (fun o other => softCollisionStep o other dt) obj

/-- The loop body of ObjectManager.update for one non-grabbed object:
rotation advance, bobbing (y from targetPosition plus the sine bob),
horizontal drift, then soft collision avoidance against the current
list.  The final squish branch of the source only rescales mesh.scale
from squishAmount; it moves no position and is not part of the model. -/
def updateObjectMotion (objs : List BalloonObject) (obj : BalloonObject)
    (dt t : ℝ) : BalloonObject :=
  let r : Point3 := ⟨obj.rotation.x + obj.rotationSpeed.x * dt,
                     obj.rotation.y + obj.rotationSpeed.y * dt,
                     obj.rotation.z + obj.rotationSpeed.z * dt⟩
  let bobAmount := Real.sin (t * obj.bobSpeed + obj.bobOffset) * SCENE.BOB_AMPLITUDE
  let p : Point3 := ⟨obj.position.x + Real.sin (t * 0.2 + obj.bobOffset) * SCENE.DRIFT_SPEED * dt,
                     obj.targetPosition.y + bobAmount,
                     obj.position.z⟩
  let o1 := { obj with rotation := r, position := p }
  softCollisionAvoidance objs o1 dt

/-- One step of the for-loop in ObjectManager.update: the object at
index i is skipped entirely when grabbed, otherwise replaced in place by
its updated version (later objects see the already-updated list, as with
the in-place mutation of the source). -/
def updateStep (dt t : ℝ) (objs : List BalloonObject) (i : ℕ) : List BalloonObject :=
  match objs.get? i with
  | none => objs
  | some o => if o.isGrabbed then objs else objs.set i (updateObjectMotion objs o dt t)

/-- ObjectManager.update. -/
def update (objs : List BalloonObject) (dt t : ℝ) : List BalloonObject :=
  (List.range objs.length).foldl (updateStep dt t) objs

theorem updateStep_foldl_grabbed (dt t : ℝ) (is : List ℕ) :
    ∀ (objs : List BalloonObject) (j : ℕ) (o : BalloonObject),
      objs.get? j = some o → o.isGrabbed = true →
      (is.foldl (updateStep dt t) objs).get? j = some o := by
  induction is with
  | nil => intro objs j o hj _; exact hj
  | cons i rest ih =>
      intro objs j o hj hg
      show (rest.foldl (updateStep dt t) (updateStep dt t objs i)).get? j = some o
      rcases eq_or_ne i j with hij | hij
      · subst hij
        have : updateStep dt t objs i = objs := by
          unfold updateStep
          rw [hj]
          dsimp only
          rw [if_pos hg]
        rw [this]
        exact ih objs i o hj hg
      · have hpres : (updateStep dt t objs i).get? j = some o := by
          unfold updateStep
          rcases hoi : objs.get? i with - | oi
          · exact hj
          · dsimp only
            by_cases hgi : oi.isGrabbed = true
            · rw [if_pos hgi]
              exact hj
            · rw [if_neg hgi, List.get?_set_ne _ _ hij]
              exact hj
        exact ih _ j o hpres hg

theorem softCollisionStep_push (obj other : BalloonObject) (dt : ℝ)
    (hid : ¬ other.id = obj.id)
    (h1 : (0.001 : ℝ) < distance3 obj.position other.position)
    (h2 : distance3 obj.position other.position < SCENE.COLLISION_RADIUS)
    (hdt : 0 < dt) :
    distance3 (softCollisionStep obj other dt).position other.position =
      distance3 obj.position other.position +
        (SCENE.COLLISION_RADIUS - distance3 obj.position other.position) /
          SCENE.COLLISION_RADIUS * dt * 2 := by
  unfold softCollisionStep
  dsimp only
  rw [if_neg hid, if_pos (⟨h2, h1⟩ :
    distance3 obj.position other.position < SCENE.COLLISION_RADIUS ∧
    (0.001 : ℝ) < distance3 obj.position other.position)]
  have hpush : 0 ≤ (SCENE.COLLISION_RADIUS - distance3 obj.position other.position) /
      SCENE.COLLISION_RADIUS * dt * 2 := by
    have hR : (0 : ℝ) < SCENE.COLLISION_RADIUS := by norm_num [SCENE.COLLISION_RADIUS]
    have hgap : 0 < SCENE.COLLISION_RADIUS - distance3 obj.position other.position :=
      sub_pos.mpr h2
    positivity
  exact distance3_radial_push other.position obj.position _ hpush
    (distance3_pos_of_gt _ _ h1)

/-- C8 (amended): a grabbed object receives no rotation, bobbing, drift
or collision displacement from update (its entry is returned unchanged),
yet it still acts as an obstacle: softCollisionAvoidance pushes a
non-grabbed mover strictly away from a grabbed object whose distance is
inside the collision radius and above the 0.001 degenerate-distance
guard, for a positive frame time. -/
theorem update_grabbed_spec :
    (∀ (objs : List BalloonObject) (dt t : ℝ) (j : ℕ) (o : BalloonObject),
      objs.get? j = some o → o.isGrabbed = true →
      (update objs dt t).get? j = some o) ∧
    (∀ (obj other : BalloonObject) (dt : ℝ),
      other.isGrabbed = true → other.id ≠ obj.id →
      (0.001 : ℝ) < distance3 obj.position other.position →
      distance3 obj.position other.position < SCENE.COLLISION_RADIUS → 0 < dt →
      distance3 obj.position other.position <
        distance3 (softCollisionAvoidance [other] obj dt).position other.position) := by
  constructor
  · intro objs dt t j o hj hg
    exact updateStep_foldl_grabbed dt t _ objs j o hj hg
  · intro obj other dt _ hid h1 h2 hdt
    have hfold : softCollisionAvoidance [other] obj dt = softCollisionStep obj other dt := rfl
    rw [hfold, softCollisionStep_push obj other dt hid h1 h2 hdt]
    have hR : (0 : ℝ) < SCENE.COLLISION_RADIUS := by norm_num [SCENE.COLLISION_RADIUS]
    have hgap : 0 < SCENE.COLLISION_RADIUS - distance3 obj.position other.position :=
      sub_pos.mpr h2
    have : 0 < (SCENE.COLLISION_RADIUS - distance3 obj.position other.position) /
        SCENE.COLLISION_RADIUS * dt * 2 := by positivity
    linarith

/-- A non-grabbed mover sitting exactly at the position of a grabbed
obstacle (separating distance 0). -/
def coincidentMover : BalloonObject :=
  ⟨0, ⟨0, 0, 0⟩, ⟨0, 0, 0⟩, ⟨0, 0, 0⟩, ⟨0, 0, 0⟩, 0, 1, 1, 0, false⟩

/-- The grabbed obstacle at the same position. -/
def coincidentObstacle : BalloonObject :=
  ⟨1, ⟨0, 0, 0⟩, ⟨0, 0, 0⟩, ⟨0, 0, 0⟩, ⟨0, 0, 0⟩, 0, 1, 1, 0, true⟩

theorem coincident_distance :
    distance3 coincidentMover.position coincidentObstacle.position = 0 := by
  unfold distance3 coincidentMover coincidentObstacle
  norm_num

/-- C8 counterexample: the mover is within the collision radius of the
grabbed obstacle (distance 0 < 1.5) yet softCollisionAvoidance leaves it
entirely unchanged, because the source additionally requires the
distance to exceed 0.001. -/
theorem update_grabbed_counterexample :
    distance3 coincidentMover.position coincidentObstacle.position <
      SCENE.COLLISION_RADIUS ∧
    coincidentMover.isGrabbed = false ∧
    coincidentObstacle.isGrabbed = true ∧
    softCollisionAvoidance [coincidentObstacle] coincidentMover 1 = coincidentMover := by
  refine ⟨?_, rfl, rfl, ?_⟩
  · rw [coincident_distance]
    norm_num [SCENE.COLLISION_RADIUS]
  · show softCollisionStep coincidentMover coincidentObstacle 1 = coincidentMover
    unfold softCollisionStep
    rw [if_neg (by norm_num [coincidentMover, coincidentObstacle])]
    dsimp only
    rw [if_neg ?_]
    intro hcon
    rcases hcon with ⟨-, hgt⟩
    rw [coincident_distance] at hgt
    norm_num at hgt

/-- A non-grabbed mover at distance 1 from the grabbed obstacle. -/
def pushMover : BalloonObject :=
  ⟨0, ⟨1, 0, 0⟩, ⟨0, 0, 0⟩, ⟨0, 0, 0⟩, ⟨0, 0, 0⟩, 0, 1, 1, 0, false⟩

theorem pushMover_distance :
    distance3 pushMover.position coincidentObstacle.position = 1 := by
  show Real.sqrt (((1 : ℝ) - 0) ^ 2 + ((0 : ℝ) - 0) ^ 2 + ((0 : ℝ) - 0) ^ 2) = 1
  rw [show ((1 : ℝ) - 0) ^ 2 + ((0 : ℝ) - 0) ^ 2 + ((0 : ℝ) - 0) ^ 2 = 1 from by norm_num,
    Real.sqrt_one]

/-- Witness for C8 (amended): the grabbed obstacle survives update
unchanged, and the mover at distance 1 (inside the 1.5 radius, above the
0.001 guard) is pushed strictly away from it. -/
theorem update_grabbed_spec_witness :
    (update [coincidentObstacle] 1 0).get? 0 = some coincidentObstacle ∧
    (0.001 : ℝ) < distance3 pushMover.position coincidentObstacle.position ∧
    distance3 pushMover.position coincidentObstacle.position < SCENE.COLLISION_RADIUS ∧
    distance3 pushMover.position coincidentObstacle.position <
      distance3 (softCollisionAvoidance [coincidentObstacle] pushMover 1).position
        coincidentObstacle.position := by
  have h1 : (0.001 : ℝ) < distance3 pushMover.position coincidentObstacle.position := by
    rw [pushMover_distance]
    norm_num
  have h2 : distance3 pushMover.position coincidentObstacle.position <
      SCENE.COLLISION_RADIUS := by
    rw [pushMover_distance]
    norm_num [SCENE.COLLISION_RADIUS]
  exact ⟨update_grabbed_spec.1 [coincidentObstacle] 1 0 0 coincidentObstacle rfl rfl,
    h1, h2,
    update_grabbed_spec.2 pushMover coincidentObstacle 1 rfl (by decide) h1 h2 (by norm_num)⟩

/-- Minimal object record for the active-set bookkeeping of
ObjectManager.removeObject (identity is the unique balloon id). -/
structure SceneObject where
  id : ℕ
  deriving DecidableEq

/-- ObjectManager.removeObject, restricted to its synchronous active-set
update: the source looks the object up with indexOf, returns immediately
when it is absent (index -1), and otherwise splices out that single
entry before starting the asynchronous disposal animation (the gsap
tween and mesh disposal are external).  The splice of the found index is
removal of the first occurrence. -/
def removeObject (objs : List SceneObject) (obj : SceneObject) : List SceneObject :=
  if obj ∈ objs then objs.erase obj else objs

/-- C9: removeObject removes the object from the active set immediately
(so it no longer participates in collision math), removing an object not
in the active set leaves the set unchanged, and a second removal of the
same object is a no-op. -/
theorem removeObject_spec :
    (∀ (objs : List SceneObject) (obj : SceneObject), objs.Nodup →
      obj ∉ removeObject objs obj) ∧
    (∀ (objs : List SceneObject) (obj : SceneObject), obj ∉ objs →
      removeObject objs obj = objs) ∧
    (∀ (objs : List SceneObject) (obj : SceneObject), objs.Nodup →
      removeObject (removeObject objs obj) obj = removeObject objs obj) := by
  have part1 : ∀ (objs : List SceneObject) (obj : SceneObject), objs.Nodup →
      obj ∉ removeObject objs obj := by
    intro objs obj hnd
    unfold removeObject
    by_cases hm : obj ∈ objs
    · rw [if_pos hm]
      exact hnd.not_mem_erase
    · rw [if_neg hm]
      exact hm
  have part2 : ∀ (objs : List SceneObject) (obj : SceneObject), obj ∉ objs →
      removeObject objs obj = objs := by
    intro objs obj hm
    unfold removeObject
    rw [if_neg hm]
  refine ⟨part1, part2, ?_⟩
  intro objs obj hnd
  exact part2 _ _ (part1 objs obj hnd)

/-- Witness for C9 on the concrete two-object active set. -/
theorem removeObject_spec_witness :
    (⟨0⟩ : SceneObject) ∉ removeObject [⟨0⟩, ⟨1⟩] ⟨0⟩ ∧
    removeObject [⟨1⟩] ⟨0⟩ = [⟨1⟩] ∧
    removeObject (removeObject [⟨0⟩, ⟨1⟩] ⟨0⟩) ⟨0⟩ = removeObject [⟨0⟩, ⟨1⟩] ⟨0⟩ :=
  ⟨removeObject_spec.1 [⟨0⟩, ⟨1⟩] ⟨0⟩ (by decide),
   removeObject_spec.2.1 [⟨1⟩] ⟨0⟩ (by decide),
   removeObject_spec.2.2 [⟨0⟩, ⟨1⟩] ⟨0⟩ (by decide)⟩

theorem applyJitterFilter_char (s : CanvasState) (p : Point2) :
    applyJitterFilter s p =
      ({ s with filteredPosition := some (applyJitterFilter s p).2 },
       (applyJitterFilter s p).2) := by
  rcases s with ⟨cs, comp, live, fp0, rec⟩
  unfold applyJitterFilter
  rcases fp0 with - | fp
  · rfl
  · dsimp only
    by_cases hd : distance p fp < JITTER_THRESHOLD
    · rw [if_pos hd]
    · rw [if_neg hd]

theorem addPoint_none (s : CanvasState) (p : Point2) (h : s.currentStroke = none) :
    addPoint s p = s := by
  unfold addPoint
  rw [h]

theorem addPoint_char (s : CanvasState) (st : Stroke) (p : Point2)
    (h : s.currentStroke = some st) :
    addPoint s p =
      (if STROKE.MIN_POINT_DISTANCE ≤
          distance (getSmoothedPosition (pushTrim s.recentPoints (applyJitterFilter s p).2))
            (st.points.getLastD ⟨0, 0⟩) then
        { s with filteredPosition := some (applyJitterFilter s p).2,
                 recentPoints := pushTrim s.recentPoints (applyJitterFilter s p).2,
                 livePosition := some (getSmoothedPosition
                   (pushTrim s.recentPoints (applyJitterFilter s p).2)),
                 currentStroke := some { st with points := st.points ++
                   [getSmoothedPosition (pushTrim s.recentPoints (applyJitterFilter s p).2)] } }
       else
        { s with filteredPosition := some (applyJitterFilter s p).2,
                 recentPoints := pushTrim s.recentPoints (applyJitterFilter s p).2,
                 livePosition := some (getSmoothedPosition
                   (pushTrim s.recentPoints (applyJitterFilter s p).2)) }) := by
  unfold addPoint
  rw [h]
  dsimp only
  rw [applyJitterFilter_char s p]
  dsimp only
  split_ifs with hgate
  · rfl
  · rw [h]

theorem updateLivePosition_char (s : CanvasState) (p : Point2) :
    updateLivePosition s p =
      { s with filteredPosition := some (applyJitterFilter s p).2,
               recentPoints := pushTrim s.recentPoints (applyJitterFilter s p).2,
               livePosition := some (getSmoothedPosition
                 (pushTrim s.recentPoints (applyJitterFilter s p).2)) } := by
  unfold updateLivePosition
  rw [applyJitterFilter_char s p]

/-- Consecutive points are at least STROKE.MIN_POINT_DISTANCE apart. -/
def Spaced (pts : List Point2) : Prop :=
  pts.Chain' (fun a b => STROKE.MIN_POINT_DISTANCE ≤ distance a b)

theorem Spaced.append_point (pts : List Point2) (q : Point2) (h : Spaced pts)
    (hq : STROKE.MIN_POINT_DISTANCE ≤ distance q (pts.getLastD ⟨0, 0⟩)) :
    Spaced (pts ++ [q]) := by
  unfold Spaced at *
  rw [List.chain'_append]
  refine ⟨h, List.chain'_singleton q, ?_⟩
  intro x hx y hy
  have hyq : y = q := by
    have : ([q].head? = some y) := hy
    simpa using this.symm
  subst hyq
  have hlast : pts.getLastD ⟨0, 0⟩ = x := by
    rw [List.getLastD_eq_getLast?, show pts.getLast? = some x from hx]
    rfl
  rw [← hlast, distance_comm]
  exact hq

/-- The spacing invariant on a DrawingCanvas state: the in-progress
stroke is spaced, and every completed stroke is closed and spaced. -/
def SpacedInv (s : CanvasState) : Prop :=
  (∀ st, s.currentStroke = some st → Spaced st.points) ∧
  (∀ st ∈ s.completedStrokes, st.closed = true ∧ Spaced st.points)

theorem stepCanvas_spacedInv (s : CanvasState) (op : CanvasOp) (h : SpacedInv s) :
    SpacedInv (stepCanvas s op) := by
  obtain ⟨hcur, hcomp⟩ := h
  cases op with
  | start p c =>
      constructor
      · intro st hst
        have : some (⟨[p], c, STROKE.WIDTH, false⟩ : Stroke) = some st := hst
        injection this with h2
        rw [← h2]
        exact List.chain'_singleton p
      · intro st hst
        exact hcomp st hst
  | add p =>
      rcases hc : s.currentStroke with - | st0
      · show SpacedInv (addPoint s p)
        rw [addPoint_none s p hc]
        exact ⟨hcur, hcomp⟩
      · show SpacedInv (addPoint s p)
        rw [addPoint_char s st0 p hc]
        split_ifs with hgate
        · constructor
          · intro st hst
            have : some ({ st0 with points := st0.points ++
                [getSmoothedPosition (pushTrim s.recentPoints (applyJitterFilter s p).2)] } :
                Stroke) = some st := hst
            injection this with h2
            rw [← h2]
            exact Spaced.append_point st0.points _ (hcur st0 hc) hgate
          · intro st hst
            exact hcomp st hst
        · constructor
          · intro st hst
            have : s.currentStroke = some st := hst
            rw [hc] at this
            injection this with h2
            rw [← h2]
            exact hcur st0 hc
          · intro st hst
            exact hcomp st hst
  | live p =>
      show SpacedInv (updateLivePosition s p)
      rw [updateLivePosition_char s p]
      exact ⟨hcur, hcomp⟩
  | clearLive => exact ⟨hcur, hcomp⟩
  | pause => exact ⟨hcur, hcomp⟩
  | close =>
      show SpacedInv (closeStroke s).1
      rcases hc : s.currentStroke with - | st0
      · unfold closeStroke
        rw [hc]
        exact ⟨hcur, hcomp⟩
      · unfold closeStroke
        rw [hc]
        dsimp only
        split_ifs with hlen hcount
        · exact ⟨(by intro st hst; cases hst), hcomp⟩
        · constructor
          · intro st hst
            cases hst
          · intro st hst
            rcases List.mem_append.mp hst with hold | hnew
            · exact hcomp st hold
            · have : st = { st0 with closed := true } := by simpa using hnew
              rw [this]
              exact ⟨rfl, hcur st0 hc⟩
        · exact ⟨(by intro st hst; cases hst), hcomp⟩
  | discard => exact ⟨(by intro st hst; cases hst), hcomp⟩
  | clear => exact ⟨(by intro st hst; cases hst), (by intro st hst; cases hst)⟩

theorem runCanvas_spacedInv (ops : List CanvasOp) : SpacedInv (runCanvas ops) := by
  unfold runCanvas
  have main : ∀ s, SpacedInv s → SpacedInv (ops.foldl stepCanvas s) := by
    induction ops with
    | nil => exact fun s hs => hs
    | cons op rest ih => exact fun s hs => ih _ (stepCanvas_spacedInv s op hs)
  refine main initCanvas ⟨?_, ?_⟩
  · intro st hst
    cases hst
  · intro st hst
    cases hst

/-- C6: every stroke in the completed set of a reachable DrawingCanvas
state is closed and the distance between any two consecutive points of
its polyline is at least STROKE.MIN_POINT_DISTANCE; the point-spacing
gate of addPoint never lets a closer pair through, whatever the input
sampling. -/
theorem completed_stroke_spacing (ops : List CanvasOp) (st : Stroke)
    (h : st ∈ (runCanvas ops).completedStrokes) :
    st.closed = true ∧
    st.points.Chain' (fun a b => STROKE.MIN_POINT_DISTANCE ≤ distance a b) :=
  (runCanvas_spacedInv ops).2 st h

theorem pushTrim_length (buf : List Point2) (p : Point2) (h : buf.length ≤ 10) :
    (pushTrim buf p).length ≤ 10 := by
  unfold pushTrim
  dsimp only
  by_cases hl : 10 < (buf ++ [p]).length
  · rw [if_pos hl, List.length_tail]
    simp only [List.length_append, List.length_singleton]
    omega
  · rw [if_neg hl]
    simp only [List.length_append, List.length_singleton] at hl ⊢
    omega

theorem pushTrim_of_lt (b : List Point2) (p : Point2) (h : b.length < 10) :
    pushTrim b p = b ++ [p] := by
  unfold pushTrim
  dsimp only
  rw [if_neg]
  simp only [List.length_append, List.length_singleton]
  omega

theorem pushTrim_of_full (b : List Point2) (p : Point2) (h : b.length = 10) :
    pushTrim b p = (b ++ [p]).tail := by
  unfold pushTrim
  dsimp only
  rw [if_pos]
  simp only [List.length_append, List.length_singleton]
  omega

/-- Iterated buffer update with a fixed incoming point. -/
def pushIter (p : Point2) : ℕ → List Point2 → List Point2
  | 0, b => b
  | n + 1, b => pushIter p n (pushTrim b p)

theorem pushIter_formula (p : Point2) :
    ∀ (n : ℕ) (b : List Point2), b.length ≤ 10 →
      pushIter p n b = (b ++ List.replicate n p).drop (b.length + n - 10) := by
  intro n
  induction n with
  | zero =>
      intro b hb
      show b = (b ++ List.replicate 0 p).drop (b.length + 0 - 10)
      rw [show b.length + 0 - 10 = 0 from by omega]
      simp
  | succ n ih =>
      intro b hb
      show pushIter p n (pushTrim b p) = _
      rcases lt_or_eq_of_le hb with hlt | heq
      · rw [pushTrim_of_lt b p hlt,
          ih (b ++ [p]) (by simp only [List.length_append, List.length_singleton]; omega)]
        rw [List.append_assoc,
          show [p] ++ List.replicate n p = List.replicate (n + 1) p from
            (List.replicate_succ p n).symm]
        congr 1
        simp only [List.length_append, List.length_singleton]
        omega
      · rw [pushTrim_of_full b p heq]
        rcases b with - | ⟨hd, tl⟩
        · simp at heq
        · have htl : tl.length = 9 := by
            simp only [List.length_cons] at heq
            omega
          simp only [List.cons_append, List.tail_cons]
          rw [ih (tl ++ [p])
            (by simp only [List.length_append, List.length_singleton]; omega)]
          rw [List.append_assoc,
            show [p] ++ List.replicate n p = List.replicate (n + 1) p from
              (List.replicate_succ p n).symm]
          rw [show (tl ++ [p]).length + n - 10 = n from
            by simp only [List.length_append, List.length_singleton]; omega]
          rw [show (hd :: tl).length + (n + 1) - 10 = n + 1 from
            by simp only [List.length_cons]; omega]
          rw [List.drop_succ_cons]

theorem getSmoothedPosition_replicate (p : Point2) (n : ℕ) (hn : n ≠ 0) :
    getSmoothedPosition (List.replicate n p) = p := by
  rcases p with ⟨px, py⟩
  unfold getSmoothedPosition
  rw [if_neg (by simp [hn])]
  simp only [List.map_replicate, List.sum_replicate, List.length_replicate, nsmul_eq_mul]
  have hn0 : (n : ℝ) ≠ 0 := Nat.cast_ne_zero.mpr hn
  simp only [Point2.mk.injEq]
  constructor <;> field_simp

theorem addPoint_recentPoints (s : CanvasState) (st : Stroke) (p : Point2)
    (h : s.currentStroke = some st) :
    (addPoint s p).recentPoints = pushTrim s.recentPoints (applyJitterFilter s p).2 := by
  rw [addPoint_char s st p h]
  split_ifs <;> rfl

theorem addPoint_livePosition (s : CanvasState) (st : Stroke) (p : Point2)
    (h : s.currentStroke = some st) :
    (addPoint s p).livePosition =
      some (getSmoothedPosition (pushTrim s.recentPoints (applyJitterFilter s p).2)) := by
  rw [addPoint_char s st p h]
  split_ifs <;> rfl

theorem addPoint_filteredPosition (s : CanvasState) (st : Stroke) (p : Point2)
    (h : s.currentStroke = some st) :
    (addPoint s p).filteredPosition = some (applyJitterFilter s p).2 := by
  rw [addPoint_char s st p h]
  split_ifs <;> rfl

theorem addPoint_currentStroke_isSome (s : CanvasState) (st : Stroke) (p : Point2)
    (h : s.currentStroke = some st) :
    ∃ st2, (addPoint s p).currentStroke = some st2 := by
  rw [addPoint_char s st p h]
  split_ifs
  · exact ⟨_, rfl⟩
  · exact ⟨st, h⟩

theorem stepCanvas_buffer (s : CanvasState) (op : CanvasOp)
    (h : s.recentPoints.length ≤ 10) : (stepCanvas s op).recentPoints.length ≤ 10 := by
  cases op with
  | start p c => show ([p] : List Point2).length ≤ 10; simp
  | add p =>
      show (addPoint s p).recentPoints.length ≤ 10
      rcases hc : s.currentStroke with - | st0
      · rw [addPoint_none s p hc]
        exact h
      · rw [addPoint_recentPoints s st0 p hc]
        exact pushTrim_length _ _ h
  | live p =>
      show (updateLivePosition s p).recentPoints.length ≤ 10
      rw [updateLivePosition_char]
      exact pushTrim_length _ _ h
  | clearLive => show ([] : List Point2).length ≤ 10; simp
  | pause => exact h
  | close =>
      show ((closeStroke s).1).recentPoints.length ≤ 10
      unfold closeStroke
      rcases hc : s.currentStroke with - | st0
      · exact h
      · dsimp only
        split_ifs <;> exact h
  | discard => exact h
  | clear => exact h

theorem runCanvas_buffer (ops : List CanvasOp) : (runCanvas ops).recentPoints.length ≤ 10 := by
  unfold runCanvas
  have main : ∀ s : CanvasState, s.recentPoints.length ≤ 10 →
      (ops.foldl stepCanvas s).recentPoints.length ≤ 10 := by
    induction ops with
    | nil => exact fun s hs => hs
    | cons op rest ih => exact fun s hs => ih _ (stepCanvas_buffer s op hs)
  exact main initCanvas (by simp [initCanvas])

theorem applyJitterFilter_same (s : CanvasState) (p : Point2)
    (h : s.filteredPosition = some p) : applyJitterFilter s p = (s, p) := by
  rcases s with ⟨cs, comp, live, fp0, rec⟩
  have : fp0 = some p := h
  subst this
  unfold applyJitterFilter
  dsimp only
  rw [if_pos]
  rw [distance_self]
  norm_num [JITTER_THRESHOLD]

theorem applyJitterFilter_accepted (s : CanvasState) (p : Point2)
    (h : ∀ q, s.filteredPosition = some q → JITTER_THRESHOLD ≤ distance p q) :
    applyJitterFilter s p = ({ s with filteredPosition := some p }, p) := by
  rcases s with ⟨cs, comp, live, fp0, rec⟩
  unfold applyJitterFilter
  rcases fp0 with - | q
  · rfl
  · dsimp only
    rw [if_neg (not_lt.mpr (h q rfl))]

theorem addPoint_feed_same (p : Point2) :
    ∀ (n : ℕ) (s : CanvasState) (st : Stroke),
      s.currentStroke = some st → s.filteredPosition = some p →
      ((List.replicate n p).foldl addPoint s).recentPoints = pushIter p n s.recentPoints ∧
      ((List.replicate n p).foldl addPoint s).filteredPosition = some p ∧
      (∃ st2, ((List.replicate n p).foldl addPoint s).currentStroke = some st2) ∧
      (0 < n → ((List.replicate n p).foldl addPoint s).livePosition =
        some (getSmoothedPosition (pushIter p n s.recentPoints))) := by
  intro n
  induction n with
  | zero =>
      intro s st hcs hfp
      exact ⟨rfl, hfp, ⟨st, hcs⟩, fun h0 => absurd h0 (lt_irrefl 0)⟩
  | succ n ih =>
      intro s st hcs hfp
      have h2 : (applyJitterFilter s p).2 = p := by
        rw [applyJitterFilter_same s p hfp]
      have hrec1 : (addPoint s p).recentPoints = pushTrim s.recentPoints p := by
        rw [addPoint_recentPoints s st p hcs, h2]
      have hfp1 : (addPoint s p).filteredPosition = some p := by
        rw [addPoint_filteredPosition s st p hcs, h2]
      obtain ⟨st1, hcs1⟩ := addPoint_currentStroke_isSome s st p hcs
      have hlive1 : (addPoint s p).livePosition =
          some (getSmoothedPosition (pushTrim s.recentPoints p)) := by
        rw [addPoint_livePosition s st p hcs, h2]
      rw [List.replicate_succ, List.foldl_cons]
      obtain ⟨ihrec, ihfp, ihcs, ihlive⟩ := ih (addPoint s p) st1 hcs1 hfp1
      refine ⟨?_, ihfp, ihcs, ?_⟩
      · rw [ihrec, hrec1]
        rfl
      · intro _
        rcases Nat.eq_zero_or_pos n with hn0 | hnpos
        · subst hn0
          show (addPoint s p).livePosition =
            some (getSmoothedPosition (pushIter p 1 s.recentPoints))
          rw [hlive1]
          rfl
        · rw [ihlive hnpos, hrec1]
          rfl

/-- C5 (amended): the smoothed point emitted by addPoint on a reachable
state is the arithmetic mean of the updated sliding buffer, whose length
never exceeds the fixed capacity 10; and feeding 10 consecutive
identical raw points whose first is accepted by the jitter filter (at
distance at least JITTER_THRESHOLD from the previous filtered position,
or with no previous filtered position) converges the smoothed output to
that point exactly. -/
theorem smoothing_spec :
    (∀ (ops : List CanvasOp) (p : Point2) (st : Stroke),
      (runCanvas ops).currentStroke = some st →
      (addPoint (runCanvas ops) p).recentPoints.length ≤ 10 ∧
      (addPoint (runCanvas ops) p).livePosition =
        some (getSmoothedPosition ((addPoint (runCanvas ops) p).recentPoints))) ∧
    (∀ (s : CanvasState) (p : Point2) (st : Stroke),
      s.currentStroke = some st → s.recentPoints.length ≤ 10 →
      (∀ q, s.filteredPosition = some q → JITTER_THRESHOLD ≤ distance p q) →
      ((List.replicate 10 p).foldl addPoint s).livePosition = some p) := by
  constructor
  · intro ops p st h
    constructor
    · rw [addPoint_recentPoints _ st p h]
      exact pushTrim_length _ _ (runCanvas_buffer ops)
    · rw [addPoint_livePosition _ st p h, addPoint_recentPoints _ st p h]
  · intro s p st hcs hlen hacc
    have h2 : (applyJitterFilter s p).2 = p := by
      rw [applyJitterFilter_accepted s p hacc]
    have hrec1 : (addPoint s p).recentPoints = pushTrim s.recentPoints p := by
      rw [addPoint_recentPoints s st p hcs, h2]
    have hfp1 : (addPoint s p).filteredPosition = some p := by
      rw [addPoint_filteredPosition s st p hcs, h2]
    obtain ⟨st1, hcs1⟩ := addPoint_currentStroke_isSome s st p hcs
    rw [show List.replicate 10 p = p :: List.replicate 9 p from rfl, List.foldl_cons]
    obtain ⟨-, -, -, hlive⟩ := addPoint_feed_same p 9 (addPoint s p) st1 hcs1 hfp1
    rw [hlive (by norm_num), hrec1]
    have hfull : pushIter p 9 (pushTrim s.recentPoints p) = List.replicate 10 p := by
      show pushIter p 10 s.recentPoints = List.replicate 10 p
      rw [pushIter_formula p 10 s.recentPoints hlen,
        show s.recentPoints.length + 10 - 10 = s.recentPoints.length from by omega]
      exact List.drop_left s.recentPoints (List.replicate 10 p)
    rw [hfull, getSmoothedPosition_replicate p 10 (by norm_num)]

/-- Canvas state after startStroke at (0,0) followed by m - 1 raw inputs
(1,0), all absorbed by the jitter filter: the buffer holds m copies of
(0,0) and the filtered position is stuck at (0,0). -/
def jstate (m : ℕ) : CanvasState :=
  ⟨some ⟨[⟨0, 0⟩], "c", STROKE.WIDTH, false⟩, [], some ⟨0, 0⟩, some ⟨0, 0⟩,
   List.replicate m ⟨0, 0⟩⟩

theorem jstate_jitter (m : ℕ) :
    applyJitterFilter (jstate m) ⟨1, 0⟩ = (jstate m, ⟨0, 0⟩) := by
  have hd1 : distance ⟨1, 0⟩ ⟨0, 0⟩ = 1 :=
    distance_eval 1 0 0 0 1 (by norm_num) (by norm_num)
  unfold applyJitterFilter jstate
  dsimp only
  rw [if_pos (by rw [hd1]; norm_num [JITTER_THRESHOLD])]

theorem jitter_stuck_step (m : ℕ) (hm : m ≤ 10) :
    addPoint (jstate m) ⟨1, 0⟩ = jstate (if m < 10 then m + 1 else 10) := by
  have hbuf : pushTrim (List.replicate m (⟨0, 0⟩ : Point2)) ⟨0, 0⟩ =
      List.replicate (if m < 10 then m + 1 else 10) (⟨0, 0⟩ : Point2) := by
    rcases lt_or_eq_of_le hm with hlt | heq
    · rw [if_pos hlt, pushTrim_of_lt _ _ (by simpa using hlt)]
      exact (List.replicate_succ' m (⟨0, 0⟩ : Point2)).symm
    · subst heq
      rw [if_neg (by norm_num), pushTrim_of_full _ _ (by simp),
        ← List.replicate_succ', List.tail_replicate]
  have hgate : ¬ STROKE.MIN_POINT_DISTANCE ≤
      distance ⟨0, 0⟩ ((⟨[⟨0, 0⟩], "c", STROKE.WIDTH, false⟩ : Stroke).points.getLastD ⟨0, 0⟩) := by
    rw [show ((⟨[⟨0, 0⟩], "c", STROKE.WIDTH, false⟩ : Stroke).points.getLastD ⟨0, 0⟩) =
      (⟨0, 0⟩ : Point2) from rfl, distance_self]
    norm_num [STROKE.MIN_POINT_DISTANCE]
  rw [addPoint_char (jstate m) ⟨[⟨0, 0⟩], "c", STROKE.WIDTH, false⟩ ⟨1, 0⟩ rfl]
  rw [show (applyJitterFilter (jstate m) ⟨1, 0⟩).2 = ⟨0, 0⟩ from by rw [jstate_jitter]]
  rw [show (jstate m).recentPoints = List.replicate m ⟨0, 0⟩ from rfl]
  rw [hbuf]
  rw [getSmoothedPosition_replicate ⟨0, 0⟩ _ (by split_ifs <;> omega)]
  rw [if_neg hgate]
  rfl

theorem jitter_stuck_fold :
    ∀ (k m : ℕ), m ≤ 10 →
      (List.replicate k (CanvasOp.add ⟨1, 0⟩)).foldl stepCanvas (jstate m) =
        jstate (min (m + k) 10) := by
  intro k
  induction k with
  | zero =>
      intro m hm
      show jstate m = jstate (min (m + 0) 10)
      rw [show min (m + 0) 10 = m from by omega]
  | succ k ih =>
      intro m hm
      rw [List.replicate_succ, List.foldl_cons]
      show (List.replicate k (CanvasOp.add ⟨1, 0⟩)).foldl stepCanvas
        (addPoint (jstate m) ⟨1, 0⟩) = jstate (min (m + (k + 1)) 10)
      rw [jitter_stuck_step m hm]
      rcases lt_or_eq_of_le hm with hlt | heq
      · rw [if_pos hlt, ih (m + 1) (by omega)]
        congr 1
        omega
      · subst heq
        rw [if_neg (by norm_num), ih 10 (by norm_num)]
        congr 1
        omega

/-- C5 counterexample: start a stroke at (0,0), then feed the identical
raw input point (1,0) ten times (the buffer capacity).  Every raw (1,0)
is within the jitter threshold of the filtered position (0,0), so the
buffer fills with (0,0) and the smoothed output stays at (0,0): it does
not converge to the fed point (1,0). -/
theorem smoothing_identical_counterexample :
    (runCanvas (CanvasOp.start ⟨0, 0⟩ "c" ::
      List.replicate 10 (CanvasOp.add ⟨1, 0⟩))).livePosition = some ⟨0, 0⟩ ∧
    (runCanvas (CanvasOp.start ⟨0, 0⟩ "c" ::
      List.replicate 10 (CanvasOp.add ⟨1, 0⟩))).livePosition ≠ some ⟨1, 0⟩ := by
  have hrun : runCanvas (CanvasOp.start ⟨0, 0⟩ "c" ::
      List.replicate 10 (CanvasOp.add ⟨1, 0⟩)) = jstate 10 := by
    unfold runCanvas
    rw [List.foldl_cons,
      show stepCanvas initCanvas (CanvasOp.start ⟨0, 0⟩ "c") = jstate 1 from rfl,
      jitter_stuck_fold 10 1 (by norm_num)]
    congr 1
  constructor
  · rw [hrun]
    rfl
  · rw [hrun]
    intro hcon
    have h2 : (⟨0, 0⟩ : Point2) = ⟨1, 0⟩ := by
      have : some (⟨0, 0⟩ : Point2) = some ⟨1, 0⟩ := hcon
      injection this
    have h3 : (0 : ℝ) = 1 := congrArg Point2.x h2
    norm_num at h3

/-- Witness for C5 (amended) at the concrete reachable state reached by
startStroke at (0,0), feeding (5,0): the first (5,0) is at distance 5
from the filtered position (0,0), above the jitter threshold. -/
theorem smoothing_spec_witness :
    (runCanvas [CanvasOp.start ⟨0, 0⟩ "c"]).currentStroke =
      some ⟨[⟨0, 0⟩], "c", STROKE.WIDTH, false⟩ ∧
    (addPoint (runCanvas [CanvasOp.start ⟨0, 0⟩ "c"]) ⟨5, 0⟩).recentPoints.length ≤ 10 ∧
    (addPoint (runCanvas [CanvasOp.start ⟨0, 0⟩ "c"]) ⟨5, 0⟩).livePosition =
      some (getSmoothedPosition
        ((addPoint (runCanvas [CanvasOp.start ⟨0, 0⟩ "c"]) ⟨5, 0⟩).recentPoints)) ∧
    ((List.replicate 10 (⟨5, 0⟩ : Point2)).foldl addPoint
      (runCanvas [CanvasOp.start ⟨0, 0⟩ "c"])).livePosition = some ⟨5, 0⟩ := by
  have hcs : (runCanvas [CanvasOp.start ⟨0, 0⟩ "c"]).currentStroke =
      some ⟨[⟨0, 0⟩], "c", STROKE.WIDTH, false⟩ := rfl
  have hlen : (runCanvas [CanvasOp.start ⟨0, 0⟩ "c"]).recentPoints.length ≤ 10 := by
    show ([⟨0, 0⟩] : List Point2).length ≤ 10
    simp
  have hacc : ∀ q, (runCanvas [CanvasOp.start ⟨0, 0⟩ "c"]).filteredPosition = some q →
      JITTER_THRESHOLD ≤ distance ⟨5, 0⟩ q := by
    intro q hq
    have : some (⟨0, 0⟩ : Point2) = some q := hq
    injection this with h2
    rw [← h2, distance_eval 5 0 0 0 5 (by norm_num) (by norm_num)]
    norm_num [JITTER_THRESHOLD]
  obtain ⟨h1, h2⟩ := smoothing_spec.1 [CanvasOp.start ⟨0, 0⟩ "c"] ⟨5, 0⟩ _ hcs
  exact ⟨hcs, h1, h2, smoothing_spec.2 _ ⟨5, 0⟩ _ hcs hlen hacc⟩

def traceState1 : CanvasState :=
  ⟨some ⟨[⟨0, 0⟩], "c", STROKE.WIDTH, false⟩, [], some ⟨0, 0⟩, some ⟨0, 0⟩, [⟨0, 0⟩]⟩

def traceState2 : CanvasState :=
  ⟨some ⟨[⟨0, 0⟩, ⟨100, 0⟩], "c", STROKE.WIDTH, false⟩, [], some ⟨100, 0⟩,
   some ⟨200, 0⟩, [⟨0, 0⟩, ⟨200, 0⟩]⟩

def traceState3 : CanvasState :=
  ⟨some ⟨[⟨0, 0⟩, ⟨100, 0⟩, ⟨200, 0⟩], "c", STROKE.WIDTH, false⟩, [], some ⟨200, 0⟩,
   some ⟨400, 0⟩, [⟨0, 0⟩, ⟨200, 0⟩, ⟨400, 0⟩]⟩

/-- The stroke the close operation of the witness trace produces. -/
def closedTraceStroke : Stroke :=
  ⟨[⟨0, 0⟩, ⟨100, 0⟩, ⟨200, 0⟩], "c", STROKE.WIDTH, true⟩

theorem trace_step2 : addPoint traceState1 ⟨200, 0⟩ = traceState2 := by
  have hjit : applyJitterFilter traceState1 ⟨200, 0⟩ =
      ({ traceState1 with filteredPosition := some ⟨200, 0⟩ }, ⟨200, 0⟩) := by
    unfold applyJitterFilter traceState1
    dsimp only
    rw [if_neg (by
      rw [distance_eval 200 0 0 0 200 (by norm_num) (by norm_num)]
      norm_num [JITTER_THRESHOLD])]
  have hbuf : pushTrim traceState1.recentPoints ⟨200, 0⟩ = [⟨0, 0⟩, ⟨200, 0⟩] := by
    rw [show traceState1.recentPoints = [⟨0, 0⟩] from rfl,
      pushTrim_of_lt _ _ (by simp)]
    rfl
  have hmean : getSmoothedPosition [(⟨0, 0⟩ : Point2), ⟨200, 0⟩] = ⟨100, 0⟩ := by
    unfold getSmoothedPosition
    rw [if_neg (by simp)]
    simp only [List.map_cons, List.map_nil, List.sum_cons, List.sum_nil, List.length_cons,
      List.length_nil, Point2.mk.injEq]
    norm_num
  have hgate : STROKE.MIN_POINT_DISTANCE ≤ distance ⟨100, 0⟩
      ((⟨[⟨0, 0⟩], "c", STROKE.WIDTH, false⟩ : Stroke).points.getLastD ⟨0, 0⟩) := by
    rw [show ((⟨[⟨0, 0⟩], "c", STROKE.WIDTH, false⟩ : Stroke).points.getLastD ⟨0, 0⟩) =
      (⟨0, 0⟩ : Point2) from rfl,
      distance_eval 100 0 0 0 100 (by norm_num) (by norm_num)]
    norm_num [STROKE.MIN_POINT_DISTANCE]
  rw [addPoint_char traceState1 ⟨[⟨0, 0⟩], "c", STROKE.WIDTH, false⟩ ⟨200, 0⟩ rfl,
    show (applyJitterFilter traceState1 ⟨200, 0⟩).2 = ⟨200, 0⟩ from by rw [hjit],
    hbuf, hmean, if_pos hgate]
  rfl

theorem trace_step3 : addPoint traceState2 ⟨400, 0⟩ = traceState3 := by
  have hjit : applyJitterFilter traceState2 ⟨400, 0⟩ =
      ({ traceState2 with filteredPosition := some ⟨400, 0⟩ }, ⟨400, 0⟩) := by
    unfold applyJitterFilter traceState2
    dsimp only
    rw [if_neg (by
      rw [distance_eval 400 0 200 0 200 (by norm_num) (by norm_num)]
      norm_num [JITTER_THRESHOLD])]
  have hbuf : pushTrim traceState2.recentPoints ⟨400, 0⟩ =
      [⟨0, 0⟩, ⟨200, 0⟩, ⟨400, 0⟩] := by
    rw [show traceState2.recentPoints = [⟨0, 0⟩, ⟨200, 0⟩] from rfl,
      pushTrim_of_lt _ _ (by simp)]
    rfl
  have hmean : getSmoothedPosition [(⟨0, 0⟩ : Point2), ⟨200, 0⟩, ⟨400, 0⟩] = ⟨200, 0⟩ := by
    unfold getSmoothedPosition
    rw [if_neg (by simp)]
    simp only [List.map_cons, List.map_nil, List.sum_cons, List.sum_nil, List.length_cons,
      List.length_nil, Point2.mk.injEq]
    norm_num
  have hgate : STROKE.MIN_POINT_DISTANCE ≤ distance ⟨200, 0⟩
      ((⟨[⟨0, 0⟩, ⟨100, 0⟩], "c", STROKE.WIDTH, false⟩ : Stroke).points.getLastD ⟨0, 0⟩) := by
    rw [show ((⟨[⟨0, 0⟩, ⟨100, 0⟩], "c", STROKE.WIDTH, false⟩ : Stroke).points.getLastD
        ⟨0, 0⟩) = (⟨100, 0⟩ : Point2) from rfl,
      distance_eval 200 0 100 0 100 (by norm_num) (by norm_num)]
    norm_num [STROKE.MIN_POINT_DISTANCE]
  rw [addPoint_char traceState2 ⟨[⟨0, 0⟩, ⟨100, 0⟩], "c", STROKE.WIDTH, false⟩ ⟨400, 0⟩ rfl,
    show (applyJitterFilter traceState2 ⟨400, 0⟩).2 = ⟨400, 0⟩ from by rw [hjit],
    hbuf, hmean, if_pos hgate]
  rfl

theorem trace_length : calculateStrokeLength traceState3 = 200 := by
  show (if (3 : ℕ) < 2 then (0 : ℝ)
    else polylineLength [⟨0, 0⟩, ⟨100, 0⟩, ⟨200, 0⟩]) = 200
  rw [if_neg (by norm_num)]
  show distance ⟨0, 0⟩ ⟨100, 0⟩ + (distance ⟨100, 0⟩ ⟨200, 0⟩ + 0) = 200
  rw [distance_eval 0 0 100 0 100 (by norm_num) (by norm_num),
    distance_eval 100 0 200 0 100 (by norm_num) (by norm_num)]
  norm_num

theorem trace_step4 : (closeStroke traceState3).1 =
    ⟨none, [closedTraceStroke], some ⟨200, 0⟩, some ⟨400, 0⟩,
     [⟨0, 0⟩, ⟨200, 0⟩, ⟨400, 0⟩]⟩ := by
  unfold closeStroke
  rw [show traceState3.currentStroke =
    some ⟨[⟨0, 0⟩, ⟨100, 0⟩, ⟨200, 0⟩], "c", STROKE.WIDTH, false⟩ from rfl]
  dsimp only
  rw [if_neg (by rw [trace_length]; norm_num [GESTURE.MIN_STROKE_LENGTH])]
  rw [if_pos (by norm_num : 2 < ([⟨0, 0⟩, ⟨100, 0⟩, ⟨200, 0⟩] : List Point2).length)]
  rfl

/-- Witness for C6: the four-operation trace start, add, add, close
produces the completed stroke closedTraceStroke (points (0,0), (100,0),
(200,0)), which is closed and whose consecutive points are 100 pixels
apart, at least the 8 pixel minimum. -/
theorem completed_stroke_spacing_witness :
    closedTraceStroke ∈ (runCanvas [CanvasOp.start ⟨0, 0⟩ "c", CanvasOp.add ⟨200, 0⟩,
      CanvasOp.add ⟨400, 0⟩, CanvasOp.close]).completedStrokes ∧
    closedTraceStroke.closed = true ∧
    closedTraceStroke.points.Chain' (fun a b => STROKE.MIN_POINT_DISTANCE ≤ distance a b) := by
  have hrun : runCanvas [CanvasOp.start ⟨0, 0⟩ "c", CanvasOp.add ⟨200, 0⟩,
      CanvasOp.add ⟨400, 0⟩, CanvasOp.close] =
      ⟨none, [closedTraceStroke], some ⟨200, 0⟩, some ⟨400, 0⟩,
       [⟨0, 0⟩, ⟨200, 0⟩, ⟨400, 0⟩]⟩ := by
    unfold runCanvas
    simp only [List.foldl_cons, List.foldl_nil]
    rw [show stepCanvas initCanvas (CanvasOp.start ⟨0, 0⟩ "c") = traceState1 from rfl,
      show stepCanvas traceState1 (CanvasOp.add ⟨200, 0⟩) = traceState2 from trace_step2,
      show stepCanvas traceState2 (CanvasOp.add ⟨400, 0⟩) = traceState3 from trace_step3,
      show stepCanvas traceState3 CanvasOp.close = _ from trace_step4]
  have hmem : closedTraceStroke ∈ (runCanvas [CanvasOp.start ⟨0, 0⟩ "c",
      CanvasOp.add ⟨200, 0⟩, CanvasOp.add ⟨400, 0⟩, CanvasOp.close]).completedStrokes := by
    rw [hrun]
    exact List.mem_singleton.mpr rfl
  exact ⟨hmem, completed_stroke_spacing _ _ hmem⟩

end AirCanvas
